import Mathlib

/-!
Verification of the conversation state machine and suggestion pipeline of the
Zillow Premier Agent Call Assistant repository.

The Python sources are shallowly embedded: pure functions become Lean
functions, the analyzer's mutable `self.state` becomes explicit state
passing, Python floats become rationals (all constants here are decimal),
Python exceptions become `Except` values.
-/

namespace CallAssistant

/-- Python `sub in s` substring test, on explicit character lists. -/
def listContains (pat : List Char) : List Char → Bool
  | [] => pat.isEmpty
  | c :: rest => pat.isPrefixOf (c :: rest) || listContains pat rest

/-- Python `sub in s` on strings. -/
def pyContains (s sub : String) : Bool := listContains sub.toList s.toList

/-- Python `str.lower()` (ASCII, which covers every string in the sources),
as a character-wise map on the string's character list. -/
def pyLower (s : String) : String := ⟨s.data.map Char.toLower⟩

/-! ## src/core/conversation_analyzer.py : data model -/

/-- `class ConversationStage(Enum)` from src/core/conversation_analyzer.py. -/
inductive ConversationStage
  | opening
  | appointment
  | location
  | motivation
  | objection_handling
  | closing
deriving DecidableEq, Repr

/-- `class ObjectionType(Enum)` from src/core/conversation_analyzer.py. -/
inductive ObjectionType
  | listing_agent
  | working_with_agent
  | quick_question
  | pending_property
  | out_of_town
  | not_ready
deriving DecidableEq, Repr

/-- The `.value` string of an `ObjectionType` member. -/
def ObjectionType.value : ObjectionType → String
  | .listing_agent => "listing_agent"
  | .working_with_agent => "working_with_agent"
  | .quick_question => "quick_question"
  | .pending_property => "pending_property"
  | .out_of_town => "out_of_town"
  | .not_ready => "not_ready"

/-- `@dataclass ConversationState` (the fields `analyze_speech` touches,
plus the analyzer's own `detected_objections` set, kept as a
duplicate-free list). -/
structure ConversationState where
  stage : ConversationStage
  appointment_set : Bool := false
  location_discussed : Bool := false
  motivation_uncovered : Bool := false
  last_speaker : Option String := none
  detected_objections : List ObjectionType := []
deriving DecidableEq, Repr

/-- The analyzer's initial state: `ConversationState(stage=ConversationStage.OPENING)`. -/
def initialState : ConversationState := { stage := ConversationStage.opening }

/-- A Python template value from src/core/conversation_templates.py:
either a string, a list of strings, or a nested dict. -/
inductive TemplateVal
  | str (s : String)
  | strs (l : List String)
  | dict (entries : List (String × TemplateVal))

/-! ## src/core/conversation_templates.py (the entries the analyzer reads) -/

/-- `OBJECTION_HANDLERS[o.value]` from src/core/conversation_templates.py,
keyed directly by the objection member. -/
def OBJECTION_HANDLERS : ObjectionType → TemplateVal
  | .listing_agent => .dict
      [("steamroll", .dict
          [("template", .str ("The listing agent for this property is a colleague of mine and I can absolutely " ++
            "show you this home, when would you like to go see it?")),
           ("keywords", .strs ["listing agent", "show", "colleague"])]),
       ("education", .dict
          [("template", .str ("I understand and just want to make sure you\x27re taken care of. I would be happy to " ++
            "represent you as your full-service real estate agent, and I am available all week to " ++
            "show you as many properties as necessary to find you the best home. It is a common " ++
            "misconception that the listing agent will be able to get you the best deal, as they " ++
            "are also looking out for the best interest of the seller. They will not fully be able " ++
            "to commit to your needs. If you had interest in multiple properties, it could become " ++
            "quite the nuisance for you to reach out to multiple agents, as you would receive various " ++
            "follow up communication from all of them moving forward. Again, I would love to represent " ++
            "you, regardless of how many properties we look at, and be your one stop shop for all of " ++
            "your real estate needs! Are you free to tour the property tomorrow morning?")),
           ("keywords", .strs ["listing agent", "represent", "best deal", "seller", "multiple properties"])])]
  | .working_with_agent => .dict
      [("template", .str ("I completely understand! I am free to show you this property, and I would be happy to " ++
          "help you find the right home. Of course, if we toured this home together, my expectation " ++
          "would be that I would represent you, and write an offer on your behalf if you decide to " ++
          "move forward. If you are not comfortable with that, I totally understand, and do not want " ++
          "to step on anyone\x27s toes! If that\x27s the case, I would recommend reaching out to your agent, " ++
          "and schedule a tour when they\x27re available. I personally have been servicing this area for " ++
          "{years_experience} years, and have a strong understanding of the market, and what it takes " ++
          "to win offers. I will send you my contact information, and of course you are always welcome " ++
          "to reach out to me at any time if you\x27d like to work together! Would you like me to show " ++
          "you this property?")),
       ("keywords", .strs ["working with", "another agent", "represent", "offer"])]
  | .quick_question => .dict
      [("template", .str ("Absolutely, I will be happy to help! I don\x27t have information in front of me at this " ++
          "moment but will be happy to reach out to the seller as soon as we\x27re off the call and " ++
          "answer any question\x27s you have! What would you like to know about the property?")),
       ("follow_up", .str ("Perfect! I will get that information for you and get back with you shortly! I\x27d love " ++
          "to schedule a showing for you to tour the property as well, are you free tomorrow " ++
          "morning to see it?")),
       ("keywords", .strs ["question", "information", "know about", "property"])]
  | .pending_property => .dict
      [("template", .str ("I do see that as well. Many sellers will still entertain back up offers after their " ++
          "home goes in contract. I will be happy to reach out to the seller and see if they are " ++
          "accepting back up offers at this time! When are you free to tour the property?")),
       ("keywords", .strs ["pending", "contract", "backup", "offers"])]
  | .out_of_town => .dict
      [("template", .str ("I understand, and that won\x27t be a problem. I would be happy to tour the property on " ++
          "your behalf and send you a video, or perhaps we can view the home live together virtually " ++
          "through Zoom or FaceTime! Are you free for a virtual showing tomorrow morning?")),
       ("keywords", .strs ["out of town", "not in town", "virtual", "video"])]
  | .not_ready => .dict
      [("template", .str ("I completely understand! I would be happy to represent you as your agent moving forward, " ++
          "and when the time is right, we can certainly ramp up our search! When are you free to " ++
          "tour this property?")),
       ("keywords", .strs ["not ready", "year", "rent", "future"])]

/-- `ALM_QUESTIONS` from src/core/conversation_templates.py. -/
def ALM_QUESTIONS (key : String) : List String :=
  if key = "appointment" then
    ["When would you like to go see the property?",
     "Are you available tomorrow morning for a tour?",
     "Would you prefer an in-person showing or a virtual tour?",
     "What time works best for you to view the property?"]
  else if key = "location" then
    ["Are there any other properties you\x27ve been looking at?",
     "Are you only interested in this area, or are you open to seeing alternative locations and neighborhoods?",
     "What other neighborhoods are you considering?",
     "How far from this location would you be willing to look?"]
  else if key = "motivation" then
    ["What interests you about this property?",
     "How long have you been looking?",
     "Have you seen any other properties?",
     "What features are most important to you in a home?",
     "Are you currently renting or owning?",
     "Will you need to sell a home as well?"]
  else []

/-- `CLOSING_TEMPLATES[key]['template']` from src/core/conversation_templates.py. -/
def CLOSING_TEMPLATES_template (key : String) : String :=
  if key = "appointment_set" then
    "Thank you for taking the time to go over your home search needs! As soon as we\x27re " ++
    "off the call, I will reach out to the seller of this property, as well as a few others " ++
    "that I think you\x27ll really be interested in based on what we discussed. I will get back " ++
    "to you shortly with appointment confirmations! The phone number I am showing for you is " ++
    "{phone}, is that correct? Perfect, and the email I am showing is {email}, is that the " ++
    "best email for you? Awesome, and what is your preferred method of communication? Great! " ++
    "I will get back with you shortly, and I\x27m very excited to work with you!"
  else if key = "nurture_lead" then
    "Thank you for taking the time to speak with me today! I will be happy to set you up " ++
    "on a search for properties that are similar to what we discussed, and we can keep an " ++
    "eye on the market together. If you come across any other properties that you\x27d like to " ++
    "discuss or would like to talk strategy for how and when to make a purchase in this " ++
    "market, I am always happy to help! I am excited to work with you!"
  else ""

/-- `AVOID_PHRASES` from src/core/conversation_templates.py. -/
def AVOID_PHRASES : List String :=
  ["not available", "already sold", "need pre-approval", "bad condition",
   "major issues", "act quickly", "losing the property", "market conditions",
   "financing", "credit score", "down payment", "let me check the MLS",
   "I\x27m not available", "can\x27t do that time"]

/-! ## src/core/conversation_analyzer.py : operations -/

/-- The heterogeneous dict returned by `analyze_speech`; `none` in an
optional field means the key is absent from the returned dict. -/
structure AnalyzeResult where
  suggestion_type : String
  suggestion : Option TemplateVal := none
  warnings : Option (List String) := none
  next_stage : Option String := none

/-- `ConversationAnalyzer._check_avoid_phrases`. -/
def _check_avoid_phrases (text : String) : List String :=
  AVOID_PHRASES.foldl
    (fun warnings phrase =>
      if pyContains (pyLower text) phrase then
        warnings ++ ["Avoid mentioning \x27" ++ phrase ++ "\x27 during the first call"]
      else warnings)
    []

/-- `ConversationAnalyzer._detect_objection`. -/
def _detect_objection (text : String) : Option ObjectionType :=
  let t := pyLower text
  if pyContains t "listing agent" || pyContains t "seller\x27s agent" then
    some .listing_agent
  else if pyContains t "working with" && pyContains t "agent" then
    some .working_with_agent
  else if pyContains t "quick question" || pyContains t "just wondering" then
    some .quick_question
  else if pyContains t "pending" || pyContains t "under contract" then
    some .pending_property
  else if pyContains t "out of town" || pyContains t "not in town" then
    some .out_of_town
  else if pyContains t "not ready" || pyContains t "too soon" then
    some .not_ready
  else none

/-- `ConversationAnalyzer._handle_opening_stage` (receives the lowered text). -/
def _handle_opening_stage (st : ConversationState) (text speaker : String) :
    AnalyzeResult × ConversationState :=
  if speaker = "agent" ∧
      pyContains text "this is" = true ∧
      (pyContains text "realty" = true ∨ pyContains text "real estate" = true) then
    ({ suggestion_type := "alm_question",
       suggestion := some (.str ((ALM_QUESTIONS "appointment").getD 0 "")),
       next_stage := some "appointment" },
     { st with stage := .appointment })
  else
    ({ suggestion_type := "opening",
       suggestion := some (.str "Remember to introduce yourself and your brokerage") }, st)

/-- The positive-appointment-indicator test of
`ConversationAnalyzer._handle_appointment_stage`:
`any(phrase in text.lower() for phrase in ["yes", "sure", "okay", "tomorrow", "available"])`. -/
def appointmentPositive (text : String) : Bool :=
  ["yes", "sure", "okay", "tomorrow", "available"].any
    (fun phrase => pyContains (pyLower text) phrase)

/-- `ConversationAnalyzer._handle_appointment_stage`. -/
def _handle_appointment_stage (st : ConversationState) (text speaker : String) :
    AnalyzeResult × ConversationState :=
  if speaker = "client" ∧ appointmentPositive text = true then
    ({ suggestion_type := "alm_question",
       suggestion := some (.str ((ALM_QUESTIONS "location").getD 0 "")),
       next_stage := some "location" },
     { st with appointment_set := true, stage := .location })
  else
    ({ suggestion_type := "appointment",
       suggestion := some (.str ("Focus on securing the appointment. Try: " ++
         (ALM_QUESTIONS "appointment").getD 0 "")) }, st)

/-- `ConversationAnalyzer._handle_location_stage`. -/
def _handle_location_stage (st : ConversationState) (_text speaker : String) :
    AnalyzeResult × ConversationState :=
  if speaker = "client" then
    ({ suggestion_type := "alm_question",
       suggestion := some (.str ((ALM_QUESTIONS "motivation").getD 0 "")),
       next_stage := some "motivation" },
     { st with location_discussed := true, stage := .motivation })
  else
    ({ suggestion_type := "location",
       suggestion := some (.str ("Ask about other areas they\x27re interested in: " ++
         (ALM_QUESTIONS "location").getD 1 "")) }, st)

/-- `ConversationAnalyzer._handle_motivation_stage`. -/
def _handle_motivation_stage (st : ConversationState) (_text speaker : String) :
    AnalyzeResult × ConversationState :=
  if speaker = "client" then
    ({ suggestion_type := "closing",
       suggestion := some (.str (CLOSING_TEMPLATES_template
         (if st.appointment_set then "appointment_set" else "nurture_lead"))),
       next_stage := some "closing" },
     { st with motivation_uncovered := true, stage := .closing })
  else
    ({ suggestion_type := "motivation",
       suggestion := some (.str ("Uncover their motivation: " ++
         (ALM_QUESTIONS "motivation").getD 0 "")) }, st)

/-- `ConversationAnalyzer._handle_closing_stage`. -/
def _handle_closing_stage (st : ConversationState) (text speaker : String) :
    AnalyzeResult × ConversationState :=
  if speaker = "agent" ∧ pyContains (pyLower text) "excited to work with you" = true then
    ({ suggestion_type := "end_call",
       suggestion := some (.str "Great job! You\x27ve completed the ALM framework and ended positively.") }, st)
  else
    ({ suggestion_type := "closing",
       suggestion := some (.str "Remember to end with \x27I\x27m excited to work with you!\x27") }, st)

/-- Python `set.add` on the duplicate-free objection list. -/
def addObjection (l : List ObjectionType) (o : ObjectionType) : List ObjectionType :=
  if o ∈ l then l else l ++ [o]

/-- `ConversationAnalyzer.analyze_speech`: returns the suggestion dict and
the updated analyzer state. -/
def analyze_speech (st : ConversationState) (text speaker : String) :
    AnalyzeResult × ConversationState :=
  let st1 := { st with last_speaker := some speaker }
  let low := pyLower text
  let warnings := _check_avoid_phrases low
  match _detect_objection low with
  | some objection =>
      ({ suggestion_type := "objection_handler",
         suggestion := some (OBJECTION_HANDLERS objection),
         warnings := some warnings },
       { st1 with detected_objections := addObjection st1.detected_objections objection })
  | none =>
    match st1.stage with
    | .opening => _handle_opening_stage st1 low speaker
    | .appointment => _handle_appointment_stage st1 low speaker
    | .location => _handle_location_stage st1 low speaker
    | .motivation => _handle_motivation_stage st1 low speaker
    | .closing => _handle_closing_stage st1 low speaker
    | .objection_handling => ({ suggestion_type := "general", warnings := some warnings }, st1)

/-- Run a sequence of `analyze_speech` calls, threading the state. -/
def runAnalyzer (st : ConversationState) (events : List (String × String)) : ConversationState :=
  events.foldl (fun s e => (analyze_speech s e.1 e.2).2) st

/-- Position of a stage in the canonical order
OPENING < APPOINTMENT < LOCATION < MOTIVATION < CLOSING (the
OBJECTION_HANDLING interrupt, which the `stage` field never takes,
is slotted below CLOSING). -/
def stageRank : ConversationStage → Nat
  | .opening => 0
  | .appointment => 1
  | .location => 2
  | .motivation => 3
  | .objection_handling => 4
  | .closing => 5

/-! ## Theorems for the conversation analyzer (claims C1, C2, C3) -/

/-- One `analyze_speech` call never decreases the stage rank and never
resets `appointment_set` from `true` to `false`. -/
theorem analyze_speech_step (st : ConversationState) (text speaker : String) :
    stageRank st.stage ≤ stageRank (analyze_speech st text speaker).2.stage ∧
    (st.appointment_set = true → (analyze_speech st text speaker).2.appointment_set = true) := by
  simp only [analyze_speech]
  cases h : _detect_objection (pyLower text) with
  | some obj => simp
  | none =>
    cases hs : st.stage <;>
      simp only [hs, _handle_opening_stage, _handle_appointment_stage, _handle_location_stage,
        _handle_motivation_stage, _handle_closing_stage] <;>
      first
        | (split_ifs <;> simp [stageRank])
        | simp [stageRank]

/-- Monotonicity transported along any event sequence from any state. -/
theorem runAnalyzer_step_mono (st : ConversationState) (events : List (String × String)) :
    stageRank st.stage ≤ stageRank (runAnalyzer st events).stage ∧
    (st.appointment_set = true → (runAnalyzer st events).appointment_set = true) := by
  induction events generalizing st with
  | nil => simp [runAnalyzer]
  | cons e rest ih =>
    have hstep := analyze_speech_step st e.1 e.2
    have hrest := ih ((analyze_speech st e.1 e.2).2)
    have hcons : runAnalyzer st (e :: rest) = runAnalyzer ((analyze_speech st e.1 e.2).2) rest := rfl
    rw [hcons]
    exact ⟨le_trans hstep.1 hrest.1, fun h => hrest.2 (hstep.2 h)⟩

/-- C1: starting from the initial OPENING state, along every sequence of
`analyze_speech` calls the `stage` field is monotonically non-decreasing in
the canonical order (the stage field never takes the OBJECTION_HANDLING
value, so objection interrupts never move it), and `appointment_set`, once
`true`, is never reset to `false` by any later call. -/
theorem stage_monotone_appointment_persistent (pre ext : List (String × String)) :
    stageRank (runAnalyzer initialState pre).stage ≤
      stageRank (runAnalyzer initialState (pre ++ ext)).stage ∧
    ((runAnalyzer initialState pre).appointment_set = true →
      (runAnalyzer initialState (pre ++ ext)).appointment_set = true) := by
  have happ : runAnalyzer initialState (pre ++ ext) =
      runAnalyzer (runAnalyzer initialState pre) ext := by
    simp [runAnalyzer, List.foldl_append]
  rw [happ]
  exact runAnalyzer_step_mono (runAnalyzer initialState pre) ext

/-- Witness for C1 at a concrete conversation in which the appointment is set. -/
theorem stage_monotone_appointment_persistent_witness :
    stageRank (runAnalyzer initialState
        [("hi, this is mike with abc realty", "agent"), ("yes, tomorrow morning works", "client")]).stage ≤
      stageRank (runAnalyzer initialState
        ([("hi, this is mike with abc realty", "agent"), ("yes, tomorrow morning works", "client")] ++
          [("thanks", "client")])).stage ∧
    (runAnalyzer initialState
        ([("hi, this is mike with abc realty", "agent"), ("yes, tomorrow morning works", "client")] ++
          [("thanks", "client")])).appointment_set = true :=
  ⟨(stage_monotone_appointment_persistent
      [("hi, this is mike with abc realty", "agent"), ("yes, tomorrow morning works", "client")]
      [("thanks", "client")]).1,
   (stage_monotone_appointment_persistent
      [("hi, this is mike with abc realty", "agent"), ("yes, tomorrow morning works", "client")]
      [("thanks", "client")]).2 (by decide)⟩

/-- C2 counterexample: at stage APPOINTMENT the client utterance
"Morning works best for me" contains the claimed positive-commitment
keyword "morning", yet the call neither sets `appointment_set` nor
advances the stage (the source keyword list is
yes/sure/okay/tomorrow/available, not yes/sure/okay/tomorrow/morning/afternoon/time). -/
theorem appointment_keyword_list_counterexample :
    (runAnalyzer initialState [("hi, this is mike with abc realty", "agent")]).stage =
      ConversationStage.appointment ∧
    pyContains (pyLower "Morning works best for me") "morning" = true ∧
    (analyze_speech (runAnalyzer initialState [("hi, this is mike with abc realty", "agent")])
        "Morning works best for me" "client").2.appointment_set = false ∧
    (analyze_speech (runAnalyzer initialState [("hi, this is mike with abc realty", "agent")])
        "Morning works best for me" "client").2.stage = ConversationStage.appointment := by
  decide

/-- C2 (amended): at stage APPOINTMENT, a client utterance that raises no
objection and whose lowered text contains one of the positive indicators
yes/sure/okay/tomorrow/available sets `appointment_set` and advances the
stage to LOCATION. -/
theorem appointment_positive_advances (st : ConversationState) (text : String)
    (hstage : st.stage = ConversationStage.appointment)
    (hobj : _detect_objection (pyLower text) = none)
    (hkey : appointmentPositive (pyLower text) = true) :
    (analyze_speech st text "client").2.appointment_set = true ∧
    (analyze_speech st text "client").2.stage = ConversationStage.location := by
  simp only [analyze_speech, hobj]
  simp [hstage, _handle_appointment_stage, hkey]

/-- Witness for the amended C2 at the spec scenario
"Yes, tomorrow morning works". -/
theorem appointment_positive_advances_witness :
    appointmentPositive (pyLower "Yes, tomorrow morning works") = true ∧
    (analyze_speech { stage := ConversationStage.appointment }
        "Yes, tomorrow morning works" "client").2.appointment_set = true ∧
    (analyze_speech { stage := ConversationStage.appointment }
        "Yes, tomorrow morning works" "client").2.stage = ConversationStage.location :=
  ⟨rfl,
   (appointment_positive_advances { stage := ConversationStage.appointment }
      "Yes, tomorrow morning works" rfl rfl rfl).1,
   (appointment_positive_advances { stage := ConversationStage.appointment }
      "Yes, tomorrow morning works" rfl rfl rfl).2⟩

/-- C3: whenever an objection is detected in the utterance,
`analyze_speech` returns the corresponding objection-handler suggestion and
leaves `stage`, `appointment_set`, `location_discussed` and
`motivation_uncovered` unchanged, at every stage. -/
theorem objection_frame (st : ConversationState) (text speaker : String) (obj : ObjectionType)
    (h : _detect_objection (pyLower text) = some obj) :
    (analyze_speech st text speaker).2.stage = st.stage ∧
    (analyze_speech st text speaker).2.appointment_set = st.appointment_set ∧
    (analyze_speech st text speaker).2.location_discussed = st.location_discussed ∧
    (analyze_speech st text speaker).2.motivation_uncovered = st.motivation_uncovered ∧
    (analyze_speech st text speaker).1.suggestion_type = "objection_handler" ∧
    (analyze_speech st text speaker).1.suggestion = some (OBJECTION_HANDLERS obj) := by
  simp [analyze_speech, h]

/-- Witness for C3 at the spec scenario utterance about the listing
agent, detected as LISTING_AGENT from the initial state. -/
theorem objection_frame_witness :
    _detect_objection (pyLower "I\x27d rather talk to the listing agent") =
      some ObjectionType.listing_agent ∧
    (analyze_speech initialState "I\x27d rather talk to the listing agent" "client").2.stage =
      initialState.stage ∧
    (analyze_speech initialState "I\x27d rather talk to the listing agent" "client").1.suggestion_type =
      "objection_handler" := by
  refine ⟨rfl, ?_, ?_⟩
  · exact (objection_frame initialState "I\x27d rather talk to the listing agent" "client"
      ObjectionType.listing_agent rfl).1
  · exact (objection_frame initialState "I\x27d rather talk to the listing agent" "client"
      ObjectionType.listing_agent rfl).2.2.2.2.1

/-! ## src/backend/app/services/alm_tracker.py : data model -/

/-- A Python exception escaping the tracker (all the raising operations
here raise `ValueError`). -/
inductive PyErr
  | valueError (msg : String)
deriving DecidableEq, Repr

/-- One entry of the `ALMStatus` component dicts: the `value` and
`confidence` keys (`none` models Python `None`; the `timestamp` key, a
wall-clock read, carries no information the tracker ever reads back and is
not modeled). Python floats are modeled as rationals. -/
structure FieldInfo where
  value : Option String := none
  confidence : Option ℚ := none
deriving DecidableEq, Repr

/-- `class ALMStatus(BaseModel)` from alm_tracker.py. -/
structure ALMStatus where
  area : FieldInfo := {}
  location_needs : FieldInfo := {}
  money : FieldInfo := {}
  completion_percentage : ℚ := 0
  is_qualified : Bool := false
  missing_elements : List String := []
  next_question : Option String := none
deriving DecidableEq, Repr

/-- Python truthiness of an optional string (`None` and `""` are falsy). -/
def pyTruthyStr : Option String → Bool
  | none => false
  | some s => s != ""

/-- `ALMTracker.alm_questions` (the question lists the tracker reads). -/
def alm_questions (key : String) : List String :=
  if key = "area" then
    ["What areas are you interested in?",
     "Which neighborhoods are you considering?",
     "What parts of [city] appeal to you most?",
     "Where are you looking to buy?"]
  else if key = "location_needs" then
    ["What\x27s most important to you about the location?",
     "What do you need to be close to?",
     "Are there specific features you\x27re looking for in the location?",
     "What\x27s your ideal commute time?"]
  else if key = "money" then
    ["Have you spoken with a lender about your purchase price range?",
     "What price range are you comfortable with?",
     "Have you been pre-approved for a mortgage?",
     "What monthly payment works for your budget?"]
  else []

/-- `ALMTracker.alm_indicators`: the raw regex pattern strings, in dict
order (area, location_needs, money). The regexes themselves are executed
by Python\x27s external `re` module; the tracker is therefore embedded
relative to a `finditer` oracle returning the list of `match.group(0)`
texts of a pattern on a transcript. -/
def alm_indicators : List (String × List String) :=
  [("area",
    ["\\b(?:looking|interested|want|prefer|like)\\s+(?:in|around|near)\\s+([A-Za-z\\s]+(?:area|neighborhood|suburb|city|town|district))",
     "\\b(?:north|south|east|west|downtown)\\s+[A-Za-z\\s]+",
     "\\b[A-Za-z\\s]+(?:area|neighborhood|suburb|city|town|district)\\b"]),
   ("location_needs",
    ["\\b(?:close|near|proximity)\\s+to\\s+([A-Za-z\\s]+)",
     "\\b(?:school|work|shopping|transportation|highway|train|bus)\\s+(?:district|access|nearby|area)",
     "\\b(?:commute|drive|travel)\\s+time\\b",
     "\\b(?:walkable|quiet|suburban|urban|rural)\\b"]),
   ("money",
    ["\\b(?:budget|afford|price|cost|payment)\\s+(?:range|around|about|between)?\\s+(?:\\$?\\d[\\d,.]*K?|thousand|million)",
     "\\b(?:pre-?approved|approved|qualified)\\b",
     "\\b(?:lender|mortgage|loan|financing)\\b",
     "\\bdown\\s+payment\\b"])]

/-! ## src/backend/app/services/alm_tracker.py : money normalization -/

/-- `re.sub` dropping every character outside `[0-9.,KkMm]`. -/
def cleanMoney (value : String) : String :=
  ⟨value.toList.filter (fun c =>
    c.isDigit || c = '.' || c = ',' || c = 'K' || c = 'k' || c = 'M' || c = 'm')⟩

/-- `re.search` for a trailing `[Kk]` (or `[Mm]`): the last character of
`s` is one of `chars`. -/
def endsWithAny (s : String) (chars : List Char) : Bool :=
  match s.toList.getLast? with
  | some c => c ∈ chars
  | none => false

/-- Python `s.rstrip(chars)`. -/
def pyRstrip (s : String) (chars : List Char) : String :=
  ⟨(s.toList.reverse.dropWhile (fun c => c ∈ chars)).reverse⟩

/-- Digit run to a natural number. -/
def digitsToNat (l : List Char) : Nat :=
  l.foldl (fun a c => 10 * a + (c.toNat - 48)) 0

/-- Python `float(s)` restricted to the alphabet `[0-9.,KkMm]` that can
reach it here: it succeeds exactly on strings of digits with at most one
dot and at least one digit, and raises `ValueError` otherwise. The value
is exact (a rational); the only caller discards it before any rounding
becomes observable. -/
def pyFloatOfString (s : String) : Except PyErr ℚ :=
  let cs := s.toList
  if cs.all (fun c => c.isDigit || c = '.') && cs.count '.' ≤ 1 && cs.any Char.isDigit then
    let intPart := cs.takeWhile (fun c => c ≠ '.')
    let fracPart := (cs.dropWhile (fun c => c ≠ '.')).drop 1
    .ok ((digitsToNat intPart : ℚ) + (digitsToNat fracPart : ℚ) / ((10 : ℚ) ^ fracPart.length))
  else
    .error (.valueError ("could not convert string to float: \x27" ++ s ++ "\x27"))

/-- Python `int()` truncation toward zero on an exact rational. -/
def pyTrunc (q : ℚ) : ℤ :=
  if q < 0 then -((-q).floor) else q.floor

/-- The K/M-expansion step of `_standardize_money`: expand a trailing
`K`/`k` by 1000 and a trailing `M`/`m` by 1000000 through
`str(int(float(...)))`, else keep the cleaned string. -/
def moneyConvert (clean : String) : Except PyErr String :=
  if endsWithAny clean ['K', 'k'] then
    (pyFloatOfString (pyRstrip clean ['K', 'k'])).map
      (fun q => toString (pyTrunc (q * 1000)))
  else if endsWithAny clean ['M', 'm'] then
    (pyFloatOfString (pyRstrip clean ['M', 'm'])).map
      (fun q => toString (pyTrunc (q * 1000000)))
  else
    .ok clean

/-- `ALMTracker._standardize_money`. Its final statement formats
`clean_value` — a `str` — with the `,` format option, which is invalid for
strings, so CPython raises `ValueError("Cannot specify \x27,\x27 with \x27s\x27.")`
whenever that line is reached, and any `float()` failure propagates before
it. -/
def _standardize_money (value : String) : Except PyErr String :=
  match moneyConvert (cleanMoney value) with
  | .error e => .error e
  | .ok _ => .error (.valueError "Cannot specify \x27,\x27 with \x27s\x27.")

/-! ## src/backend/app/services/alm_tracker.py : analyze_conversation -/

/-- The inner loop of `ALMTracker.analyze_conversation` for one component:
fold over the patterns and over each pattern\x27s matches, tracking
`(value, confidence)`; a money match containing a digit (the
`re.search` for an optional dollar sign followed by a digit succeeds
exactly when the value has a digit) is standardized, which raises. -/
def scanPatterns (finditer : String → String → List String) (transcript : String)
    (isMoney : Bool) (patterns : List String) : Except PyErr (Option String × ℚ) :=
  patterns.foldlM
    (fun acc pattern =>
      (finditer pattern transcript).foldlM
        (fun vc m =>
          let confidence := max vc.2 (8 / 10 : ℚ)
          if isMoney && m.toList.any Char.isDigit then
            (_standardize_money m).map (fun v => (some v, (9 / 10 : ℚ)))
          else
            .ok (some m, confidence))
        acc)
    (none, 0)

/-- `ALMTracker._calculate_completion`. -/
def _calculate_completion (status : ALMStatus) : ℚ :=
  (((if pyTruthyStr status.area.value then 1 else 0) +
    (if pyTruthyStr status.location_needs.value then 1 else 0) +
    (if pyTruthyStr status.money.value then 1 else 0) : ℚ)) / 3

/-- `ALMTracker._get_missing_elements`. -/
def _get_missing_elements (status : ALMStatus) : List String :=
  (if pyTruthyStr status.area.value then [] else ["area"]) ++
  (if pyTruthyStr status.location_needs.value then [] else ["location_needs"]) ++
  (if pyTruthyStr status.money.value then [] else ["money"])

/-- `ALMTracker._get_next_question`. -/
def _get_next_question (status : ALMStatus) : Option String :=
  if !pyTruthyStr status.money.value then some ((alm_questions "money").getD 0 "")
  else if !pyTruthyStr status.area.value then some ((alm_questions "area").getD 0 "")
  else if !pyTruthyStr status.location_needs.value then
    some ((alm_questions "location_needs").getD 0 "")
  else none

/-- `if value: setattr(status, component, {...})`: the component dict is
written only when the found value is truthy; otherwise the default
`None`/`None` entry stays. -/
def fieldOf (vc : Option String × ℚ) : FieldInfo :=
  if pyTruthyStr vc.1 then { value := vc.1, confidence := some vc.2 } else {}

/-- The tail of `analyze_conversation`: completion, missing elements,
qualification and next question computed over the filled-in fields. -/
def buildStatus (area locN money : Option String × ℚ) : ALMStatus :=
  let status : ALMStatus :=
    { area := fieldOf area, location_needs := fieldOf locN, money := fieldOf money }
  { status with
    completion_percentage := _calculate_completion status
    missing_elements := _get_missing_elements status
    is_qualified := decide (_calculate_completion status ≥ 8 / 10)
    next_question := _get_next_question status }

/-- `ALMTracker.analyze_conversation`, relative to the `finditer` oracle
for the `re` module: scans area, location_needs and money in dict order;
any exception from money standardization propagates (the function body has
no handler). -/
def analyze_conversation (finditer : String → String → List String) (transcript : String) :
    Except PyErr ALMStatus :=
  match scanPatterns finditer transcript false ((alm_indicators.getD 0 ("", [])).2) with
  | .error e => .error e
  | .ok area =>
    match scanPatterns finditer transcript false ((alm_indicators.getD 1 ("", [])).2) with
    | .error e => .error e
    | .ok locN =>
      match scanPatterns finditer transcript true ((alm_indicators.getD 2 ("", [])).2) with
      | .error e => .error e
      | .ok money => .ok (buildStatus area locN money)

/-! ## Theorems for the ALM tracker (claims C4, C5, C6) -/

/-- C4 (code bug): money-string normalization never returns the claimed
strings — `_standardize_money` raises `ValueError` on "150K" and on
"1.2M", because its final statement applies the thousands-separator format
option to a `str` value, which CPython rejects. -/
theorem standardize_money_raises_on_examples :
    _standardize_money "150K" =
      Except.error (PyErr.valueError "Cannot specify \x27,\x27 with \x27s\x27.") ∧
    _standardize_money "1.2M" =
      Except.error (PyErr.valueError "Cannot specify \x27,\x27 with \x27s\x27.") :=
  ⟨rfl, rfl⟩

/-- The `re.finditer` results on the transcript "budget about 1.2.3K":
only the first money pattern matches (as the whole utterance); no other
tracker pattern matches this transcript. -/
def finditerMalformed (pattern transcript : String) : List String :=
  if transcript = "budget about 1.2.3K" &&
      pattern = "\\b(?:budget|afford|price|cost|payment)\\s+(?:range|around|about|between)?\\s+(?:\\$?\\d[\\d,.]*K?|thousand|million)" then
    ["budget about 1.2.3K"]
  else []

/-- C5 (code bug): the detectors do raise. `_standardize_money` returns an
error on every input (never a value), and on the transcript
"budget about 1.2.3K" — whose malformed numeric token fails `float()` —
`analyze_conversation` propagates the `ValueError` out of the pipeline
instead of returning a no-signal result: the tracker has no exception
handler. -/
theorem detector_normalization_raises :
    (∀ v : String, ∃ e, _standardize_money v = Except.error e) ∧
    analyze_conversation finditerMalformed "budget about 1.2.3K" =
      Except.error (PyErr.valueError "could not convert string to float: \x271.2.3\x27") := by
  constructor
  · intro v
    unfold _standardize_money
    cases moneyConvert (cleanMoney v) <;> exact ⟨_, rfl⟩
  · rfl

/-- For statuses built by `analyze_conversation`, a component's value is
truthy exactly when it is non-null (empty strings are never stored). -/
theorem fieldOf_truthy (vc : Option String × ℚ) :
    pyTruthyStr (fieldOf vc).value = (fieldOf vc).value.isSome := by
  unfold fieldOf
  split
  case isTrue h =>
    cases hv : vc.1 with
    | none => rw [hv] at h; simp [pyTruthyStr] at h
    | some s =>
        rw [hv] at h
        simp [pyTruthyStr] at h
        simp [hv, pyTruthyStr, h]
  case isFalse h => simp [pyTruthyStr]

/-- C6: after every `analyze_conversation` call that returns (the only
tracker update in the source), `completion_percentage` equals the count of
non-null values among area, location_needs and money divided by 3, and
`is_qualified` holds exactly when `completion_percentage ≥ 0.8`. -/
theorem completion_invariant (finditer : String → String → List String)
    (transcript : String) (status : ALMStatus)
    (h : analyze_conversation finditer transcript = Except.ok status) :
    status.completion_percentage =
      (((if status.area.value.isSome then 1 else 0) +
        (if status.location_needs.value.isSome then 1 else 0) +
        (if status.money.value.isSome then 1 else 0) : ℚ)) / 3 ∧
    (status.is_qualified = true ↔ (8 : ℚ) / 10 ≤ status.completion_percentage) := by
  unfold analyze_conversation at h
  split at h
  · exact absurd h (by simp)
  · split at h
    · exact absurd h (by simp)
    · split at h
      · exact absurd h (by simp)
      · injection h with h
        subst h
        constructor
        · show _calculate_completion _ = _
          unfold _calculate_completion
          simp only [buildStatus, fieldOf_truthy]
        · show decide _ = true ↔ _
          simp only [decide_eq_true_eq, ge_iff_le]
          show _ ↔ (8 : ℚ) / 10 ≤ _calculate_completion _
          exact Iff.rfl

/-- Witness for C6 at the empty-match oracle on the empty transcript. -/
theorem completion_invariant_witness :
    (buildStatus (none, 0) (none, 0) (none, 0)).completion_percentage =
      (((if (buildStatus (none, 0) (none, 0) (none, 0)).area.value.isSome then 1 else 0) +
        (if (buildStatus (none, 0) (none, 0) (none, 0)).location_needs.value.isSome then 1 else 0) +
        (if (buildStatus (none, 0) (none, 0) (none, 0)).money.value.isSome then 1 else 0) : ℚ)) / 3 ∧
    ((buildStatus (none, 0) (none, 0) (none, 0)).is_qualified = true ↔
      (8 : ℚ) / 10 ≤ (buildStatus (none, 0) (none, 0) (none, 0)).completion_percentage) :=
  completion_invariant (fun _ _ => []) "" (buildStatus (none, 0) (none, 0) (none, 0)) rfl

/-! ## src/backend/app/services/suggestion_generator.py : deduplication -/

/-- Splitter for Python `str.split()` (split on whitespace runs, no empty
tokens), accumulating the current token in reverse. -/
def splitWsAux (acc : List Char) : List Char → List String
  | [] => if acc.isEmpty then [] else [⟨acc.reverse⟩]
  | c :: rest =>
      if c.isWhitespace then
        (if acc.isEmpty then [] else [(⟨acc.reverse⟩ : String)]) ++ splitWsAux [] rest
      else
        splitWsAux (c :: acc) rest

/-- Python `s.split()`. -/
def pySplitWs (s : String) : List String := splitWsAux [] s.toList

/-- `set(text.lower().split())`. -/
def tokenSet (text : String) : Finset String := (pySplitWs (pyLower text)).toFinset

/-- `SuggestionGenerator._calculate_similarity`: token-set overlap
`len(t1 ∩ t2) / len(t1 ∪ t2)`, and `0.0` when the union is empty. -/
def _calculate_similarity (text1 text2 : String) : ℚ :=
  let tokens1 := tokenSet text1
  let tokens2 := tokenSet text2
  let intersection := tokens1 ∩ tokens2
  let union := tokens1 ∪ tokens2
  if union.card = 0 then 0 else (intersection.card : ℚ) / (union.card : ℚ)

/-- A suggestion dict of the generator/optimizer pipeline: the
`text`, `confidence` and `type` keys. -/
structure Suggestion where
  text : String
  confidence : ℚ := 0
  type : String := ""
deriving DecidableEq, Repr

/-- The loop of `SuggestionGenerator._remove_similar_suggestions`:
a candidate is kept iff its similarity with every already-kept candidate
is at most 0.8. -/
def removeSimilarAux (unique : List Suggestion) : List Suggestion → List Suggestion
  | [] => unique
  | s :: rest =>
      if unique.any (fun u => decide (_calculate_similarity s.text u.text > 8 / 10)) then
        removeSimilarAux unique rest
      else
        removeSimilarAux (unique ++ [s]) rest

/-- `SuggestionGenerator._remove_similar_suggestions`. -/
def _remove_similar_suggestions (suggestions : List Suggestion) : List Suggestion :=
  removeSimilarAux [] suggestions

/-! ## Theorems for deduplication (claims C7, C10) -/

/-- C10: the token-overlap similarity is total and always lands in [0,1];
when both texts tokenize to the empty set it is 0 rather than a division
by zero. -/
theorem similarity_total_bounded (text1 text2 : String) :
    0 ≤ _calculate_similarity text1 text2 ∧ _calculate_similarity text1 text2 ≤ 1 ∧
    (tokenSet text1 = ∅ ∧ tokenSet text2 = ∅ → _calculate_similarity text1 text2 = 0) := by
  unfold _calculate_similarity
  dsimp only
  split
  case isTrue h => simp
  case isFalse h =>
    have hpos : 0 < ((tokenSet text1 ∪ tokenSet text2).card : ℚ) := by
      have : 0 < (tokenSet text1 ∪ tokenSet text2).card := Nat.pos_of_ne_zero h
      exact_mod_cast this
    have hle : ((tokenSet text1 ∩ tokenSet text2).card : ℚ) ≤
        ((tokenSet text1 ∪ tokenSet text2).card : ℚ) := by
      exact_mod_cast Finset.card_le_card (Finset.inter_subset_union)
    refine ⟨div_nonneg (by positivity) hpos.le, ?_, ?_⟩
    · exact (div_le_one hpos).mpr hle
    · rintro ⟨h1, h2⟩
      exact absurd (by simp [h1, h2]) h

/-- Witness for C10 on two empty texts. -/
theorem similarity_total_bounded_witness :
    0 ≤ _calculate_similarity "" "" ∧ _calculate_similarity "" "" ≤ 1 ∧
    _calculate_similarity "" "" = 0 :=
  ⟨(similarity_total_bounded "" "").1, (similarity_total_bounded "" "").2.1,
   (similarity_total_bounded "" "").2.2 ⟨by decide, by decide⟩⟩

/-- The token-overlap similarity is symmetric. -/
theorem similarity_comm (t1 t2 : String) :
    _calculate_similarity t1 t2 = _calculate_similarity t2 t1 := by
  unfold _calculate_similarity
  dsimp only
  rw [Finset.inter_comm, Finset.union_comm]

/-- Already-kept suggestions survive the rest of the dedup loop. -/
theorem removeSimilarAux_mem (rest : List Suggestion) :
    ∀ unique, ∀ u ∈ unique, u ∈ removeSimilarAux unique rest := by
  induction rest with
  | nil => intro unique u hu; simpa [removeSimilarAux] using hu
  | cons s rest ih =>
    intro unique u hu
    simp only [removeSimilarAux]
    split
    · exact ih unique u hu
    · exact ih (unique ++ [s]) u (List.mem_append_left _ hu)

/-- The dedup loop preserves pairwise boundedness of the kept list. -/
theorem removeSimilarAux_pairwise (rest : List Suggestion) :
    ∀ unique,
      List.Pairwise (fun a b => _calculate_similarity a.text b.text ≤ 8 / 10) unique →
      List.Pairwise (fun a b => _calculate_similarity a.text b.text ≤ 8 / 10)
        (removeSimilarAux unique rest) := by
  induction rest with
  | nil => intro unique h; simpa [removeSimilarAux] using h
  | cons s rest ih =>
    intro unique h
    simp only [removeSimilarAux]
    split
    · exact ih unique h
    · next hany =>
      apply ih
      rw [List.pairwise_append]
      refine ⟨h, List.pairwise_singleton _ _, ?_⟩
      intro a ha b hb
      have hb' : b = s := by simpa using hb
      subst hb'
      have hx : ¬(_calculate_similarity b.text a.text > 8 / 10) := by
        intro hgt
        exact hany (List.any_eq_true.mpr ⟨a, ha, by simpa using hgt⟩)
      rw [similarity_comm]
      exact le_of_not_lt hx

/-- Every input suggestion either survives dedup or exceeds the 0.8
threshold against some survivor. -/
theorem removeSimilarAux_covers (rest : List Suggestion) :
    ∀ unique, ∀ s ∈ rest,
      s ∈ removeSimilarAux unique rest ∨
      ∃ u ∈ removeSimilarAux unique rest, _calculate_similarity s.text u.text > 8 / 10 := by
  induction rest with
  | nil => intro unique s hs; simp at hs
  | cons a rest ih =>
    intro unique s hs
    simp only [removeSimilarAux]
    rcases List.mem_cons.mp hs with rfl | hs'
    · split
      · next hany =>
        right
        rcases List.any_eq_true.mp hany with ⟨u, hu, hd⟩
        exact ⟨u, removeSimilarAux_mem rest unique u hu, by simpa using hd⟩
      · left
        exact removeSimilarAux_mem rest (unique ++ [s]) s (by simp)
    · split
      · exact ih unique s hs'
      · exact ih (unique ++ [a]) s hs'

/-- Evaluation rule for the similarity at computed cardinalities. -/
theorem similarity_eval (t1 t2 : String) (ci cu : Nat)
    (h1 : (tokenSet t1 ∩ tokenSet t2).card = ci)
    (h2 : (tokenSet t1 ∪ tokenSet t2).card = cu) (hcu : cu ≠ 0) :
    _calculate_similarity t1 t2 = (ci : ℚ) / (cu : ℚ) := by
  unfold _calculate_similarity
  dsimp only
  rw [h1, h2, if_neg hcu]

/-- C7 counterexample: with candidates "a b c d e f", "a b c d e",
"a b c d e g" (in that order), the pair ("a b c d e", "a b c d e g") has
similarity 5/6 > 0.8, yet dedup keeps the *later* member and drops the
earlier one: the earlier member was itself removed against the first
candidate, so the later one is compared only against survivors. -/
theorem dedup_order_counterexample :
    _calculate_similarity "a b c d e" "a b c d e g" > 8 / 10 ∧
    _remove_similar_suggestions
        [{ text := "a b c d e f" }, { text := "a b c d e" }, { text := "a b c d e g" }] =
      [{ text := "a b c d e f" }, { text := "a b c d e g" }] := by
  have hBA : _calculate_similarity "a b c d e" "a b c d e f" > 8 / 10 := by
    rw [similarity_eval "a b c d e" "a b c d e f" 5 6 (by decide) (by decide) (by decide)]
    norm_num
  have hBC : _calculate_similarity "a b c d e" "a b c d e g" > 8 / 10 := by
    rw [similarity_eval "a b c d e" "a b c d e g" 5 6 (by decide) (by decide) (by decide)]
    norm_num
  have hCA : ¬_calculate_similarity "a b c d e g" "a b c d e f" > 8 / 10 := by
    rw [similarity_eval "a b c d e g" "a b c d e f" 5 7 (by decide) (by decide) (by decide)]
    norm_num
  refine ⟨hBC, ?_⟩
  unfold _remove_similar_suggestions
  simp [removeSimilarAux, hBA, hBC, hCA]

/-- C7 (amended): no two candidates surviving deduplication have
similarity above 0.8, and every candidate either survives or was dropped
because it exceeds 0.8 against some (earlier-kept) survivor — so at most
one member of any pair above the threshold survives, but the earlier
member of such a pair may itself have been dropped in favor of a
still-earlier survivor. -/
theorem dedup_pairwise_bounded (l : List Suggestion) :
    List.Pairwise (fun a b => _calculate_similarity a.text b.text ≤ 8 / 10)
      (_remove_similar_suggestions l) ∧
    ∀ s ∈ l, s ∈ _remove_similar_suggestions l ∨
      ∃ u ∈ _remove_similar_suggestions l, _calculate_similarity s.text u.text > 8 / 10 :=
  ⟨removeSimilarAux_pairwise l [] List.Pairwise.nil,
   fun s hs => removeSimilarAux_covers l [] s hs⟩

/-- Witness for the amended C7 on a duplicated candidate. -/
theorem dedup_pairwise_bounded_witness :
    List.Pairwise (fun a b => _calculate_similarity a.text b.text ≤ 8 / 10)
      (_remove_similar_suggestions [{ text := "hello there" }, { text := "hello there" }]) ∧
    ((⟨"hello there", 0, ""⟩ : Suggestion) ∈
        _remove_similar_suggestions [{ text := "hello there" }, { text := "hello there" }] ∨
      ∃ u ∈ _remove_similar_suggestions [{ text := "hello there" }, { text := "hello there" }],
        _calculate_similarity "hello there" u.text > 8 / 10) :=
  ⟨(dedup_pairwise_bounded [{ text := "hello there" }, { text := "hello there" }]).1,
   (dedup_pairwise_bounded [{ text := "hello there" }, { text := "hello there" }]).2
     ⟨"hello there", 0, ""⟩ (by simp)⟩

/-! ## src/backend/app/services/suggestion_optimizer.py -/

/-- The `emotion_scores` sub-dict of the voice metrics; `none` models a
missing key, read through `.get(key, 0.5)`. -/
structure EmotionScores where
  confident : Option ℚ := none
  hesitant : Option ℚ := none
  interested : Option ℚ := none
deriving DecidableEq, Repr

/-- `voice_metrics` dict (`none` at the outer level models a falsy —
missing or empty — dict). -/
structure VoiceMetrics where
  emotion_scores : Option EmotionScores := none
deriving DecidableEq, Repr

/-- `market_insights` dict: the keys the optimizer reads. -/
structure MarketInsights where
  market_status : Option String := none
  days_on_market : Option ℚ := none
deriving DecidableEq, Repr

/-- `conversation_dynamics` dict: the key the optimizer reads. -/
structure ConversationDynamics where
  engagement_score : Option ℚ := none
deriving DecidableEq, Repr

/-- `class OptimizationContext(BaseModel)` from suggestion_optimizer.py. -/
structure OptimizationContext where
  voice_metrics : Option VoiceMetrics := none
  market_insights : Option MarketInsights := none
  conversation_dynamics : Option ConversationDynamics := none
  stage : String := ""
  objections : List String := []
  needs : List String := []
  interest_level : String := ""
deriving DecidableEq, Repr

/-- `metrics.get("emotion_scores", {}).get(key, 0.5)`. -/
def getEmotion (es : Option EmotionScores) (key : EmotionScores → Option ℚ) : ℚ :=
  match es with
  | none => 1 / 2
  | some e => (key e).getD (1 / 2)

/-- `SuggestionOptimizer._score_market_relevance`. -/
def _score_market_relevance (s : Suggestion) (ctx : OptimizationContext) : ℚ :=
  match ctx.market_insights with
  | none => 1 / 2
  | some _ =>
    let text := pyLower s.text
    let market_terms := ["market", "price", "value", "trend", "similar",
      "median", "comparison", "inventory", "days on market"]
    let term_usage : ℚ := ((market_terms.filter (fun t => pyContains text t)).length : ℚ)
    let has_price : ℚ := if pyContains text "$" || pyContains text "dollar" then 1 else 0
    let has_trends : ℚ := if pyContains text "%" || pyContains text "percent" then 1 else 0
    let has_timing : ℚ := if pyContains text "days" || pyContains text "quickly" then 1 else 0
    min 1 ((term_usage / (market_terms.length : ℚ)) * (4 / 10) +
      has_price * (2 / 10) + has_trends * (2 / 10) + has_timing * (2 / 10))

/-- `SuggestionOptimizer._score_emotional_match` (the `interested` signal
is read but unused in the source, as here). -/
def _score_emotional_match (s : Suggestion) (ctx : OptimizationContext) : ℚ :=
  match ctx.voice_metrics with
  | none => 1 / 2
  | some metrics =>
    let text := pyLower s.text
    let confidence := getEmotion metrics.emotion_scores (fun e => e.confident)
    let hesitation := getEmotion metrics.emotion_scores (fun e => e.hesitant)
    let _interest := getEmotion metrics.emotion_scores (fun e => e.interested)
    let reassuring_terms := ["understand", "appreciate", "help you", "let me", "share"]
    let confidence_terms := ["definitely", "absolutely", "certainly", "great opportunity"]
    let interest_building_terms := ["unique", "special", "perfect", "ideal", "exclusive"]
    let score :=
      if hesitation > 6 / 10 then
        ((reassuring_terms.filter (fun t => pyContains text t)).length : ℚ) /
          (reassuring_terms.length : ℚ)
      else if confidence > 7 / 10 then
        ((confidence_terms.filter (fun t => pyContains text t)).length : ℚ) /
          (confidence_terms.length : ℚ)
      else
        ((interest_building_terms.filter (fun t => pyContains text t)).length : ℚ) /
          (interest_building_terms.length : ℚ)
    min 1 score

/-- `SuggestionOptimizer._score_urgency`. -/
def _score_urgency (s : Suggestion) (ctx : OptimizationContext) : ℚ :=
  match ctx.market_insights with
  | none => 1 / 2
  | some mi =>
    let text := pyLower s.text
    let market_status := mi.market_status.getD ""
    let days_on_market := mi.days_on_market.getD 30
    let terms_to_check :=
      if market_status = "seller\x27s market" then
        ["quickly", "fast", "won\x27t last", "competitive", "multiple", "soon", "today", "now"]
      else if market_status = "buyer\x27s market" then
        ["opportunity", "advantage", "favorable", "potential", "negotiate", "value"]
      else []
    let score :=
      if !terms_to_check.isEmpty then
        ((terms_to_check.filter (fun t => pyContains text t)).length : ℚ) /
          (terms_to_check.length : ℚ)
      else 1 / 2
    min 1 (if days_on_market < 7 then score * (12 / 10) else score)

/-- `SuggestionOptimizer._score_engagement`. -/
def _score_engagement (s : Suggestion) (ctx : OptimizationContext) : ℚ :=
  match ctx.conversation_dynamics with
  | none => 1 / 2
  | some cd =>
    let text := pyLower s.text
    let has_question : ℚ := if pyContains text "?" then 1 else 0
    let has_invitation : ℚ :=
      if ["would you", "could you", "what if", "how about", "tell me", "share with me"].any
          (fun t => pyContains text t) then 1 else 0
    let has_ack : ℚ :=
      if ["understand", "hear", "appreciate", "interesting"].any
          (fun t => pyContains text t) then 1 else 0
    let score := has_question * (4 / 10) + has_invitation * (3 / 10) + has_ack * (3 / 10)
    let engagement_score := cd.engagement_score.getD (1 / 2)
    min 1 (if engagement_score < 5 / 10 then score * (12 / 10) else score)

/-- The objection keyword table of
`SuggestionOptimizer._score_objection_handling`, through `.get(key, [])`. -/
def objection_patterns (key : String) : List String :=
  if key = "price_too_high" then ["value", "worth", "investment", "comparable", "market"]
  else if key = "just_looking" then ["help", "guide", "information", "explore", "options"]
  else if key = "need_time" then ["understand", "process", "when", "timeline", "flexible"]
  else if key = "need_to_sell" then ["assist", "coordinate", "strategy", "handle", "plan"]
  else if key = "location" then ["area", "neighborhood", "community", "convenient", "located"]
  else []

/-- `SuggestionOptimizer._score_objection_handling`. -/
def _score_objection_handling (s : Suggestion) (ctx : OptimizationContext) : ℚ :=
  if ctx.objections.isEmpty then 1 / 2
  else
    let text := pyLower s.text
    let scores := ctx.objections.filterMap (fun objection =>
      let patterns := objection_patterns objection
      if !patterns.isEmpty then
        some (((patterns.filter (fun p => pyContains text p)).length : ℚ) /
          (patterns.length : ℚ))
      else none)
    match scores.max? with
    | some m => m
    | none => 1 / 2

/-- A suggestion dict after scoring (`{**suggestion, "optimization_scores":
..., "total_score": ...}`; the per-axis score dict is kept only through the
weighted total, which is all the downstream code reads). -/
structure ScoredSuggestion where
  text : String
  confidence : ℚ := 0
  type : String := ""
  total_score : ℚ := 0
deriving DecidableEq, Repr

/-- The scoring step of `optimize_suggestions`: the five axis scores
combined with `self.weights` (0.25/0.25/0.2/0.15/0.15, in dict order). -/
def scoreSuggestion (ctx : OptimizationContext) (s : Suggestion) : ScoredSuggestion :=
  { text := s.text, confidence := s.confidence, type := s.type,
    total_score :=
      _score_market_relevance s ctx * (25 / 100) +
      _score_emotional_match s ctx * (25 / 100) +
      _score_urgency s ctx * (2 / 10) +
      _score_engagement s ctx * (15 / 100) +
      _score_objection_handling s ctx * (15 / 100) }

/-- Stable descending insertion by `total_score` (elements strictly above
the new one keep their place; ties keep the earlier element first),
matching Python `list.sort(key=..., reverse=True)`. -/
def insertByScore (s : ScoredSuggestion) : List ScoredSuggestion → List ScoredSuggestion
  | [] => [s]
  | a :: rest =>
      if a.total_score > s.total_score then a :: insertByScore s rest
      else s :: a :: rest

/-- `scored_suggestions.sort(key=lambda x: x["total_score"], reverse=True)`. -/
def sortByScoreDesc : List ScoredSuggestion → List ScoredSuggestion
  | [] => []
  | x :: xs => insertByScore x (sortByScoreDesc xs)

/-- `SuggestionOptimizer._categorize_suggestion`. -/
def _categorize_suggestion (text : String) : String :=
  if pyContains text "?" then "question"
  else if ["schedule", "tour", "visit", "show"].any
      (fun t => pyContains (pyLower text) t) then "appointment"
  else if ["market", "price", "value", "trend"].any
      (fun t => pyContains (pyLower text) t) then "market_info"
  else if ["understand", "hear", "appreciate"].any
      (fun t => pyContains (pyLower text) t) then "empathy"
  else "other"

/-- `added_types.add(t)` on the set of seen categories. -/
def addType (l : List String) (t : String) : List String :=
  if t ∈ l then l else l ++ [t]

/-- The loop of `SuggestionOptimizer._adjust_suggestions`: append a
suggestion when its category is new or fewer than 2 are kept, and stop as
soon as 3 are kept. -/
def adjustAux (added_types : List String) (finals : List ScoredSuggestion) :
    List ScoredSuggestion → List ScoredSuggestion
  | [] => finals
  | s :: rest =>
      if _categorize_suggestion s.text ∉ added_types ∨ finals.length < 2 then
        (if (finals ++ [s]).length ≥ 3 then finals ++ [s]
         else adjustAux (addType added_types (_categorize_suggestion s.text))
            (finals ++ [s]) rest)
      else
        (if finals.length ≥ 3 then finals else adjustAux added_types finals rest)

/-- `SuggestionOptimizer._adjust_suggestions` (its `context` parameter is
unused in the source body). -/
def _adjust_suggestions (suggestions : List ScoredSuggestion)
    (_ctx : OptimizationContext) : List ScoredSuggestion :=
  adjustAux [] [] suggestions

/-- `SuggestionOptimizer.optimize_suggestions`: score, sort descending by
total score, then adjust. (The surrounding `try/except` returns the input
unscored only if a step raises; with record-typed candidates every step
here is total.) -/
def optimize_suggestions (suggestions : List Suggestion)
    (ctx : OptimizationContext) : List ScoredSuggestion :=
  _adjust_suggestions (sortByScoreDesc (suggestions.map (scoreSuggestion ctx))) ctx

/-! ## Theorems for the optimizer (claim C8) -/

/-- Insertion adds exactly one element. -/
theorem insertByScore_length (s : ScoredSuggestion) (l : List ScoredSuggestion) :
    (insertByScore s l).length = l.length + 1 := by
  induction l with
  | nil => rfl
  | cons a rest ih =>
    simp only [insertByScore]
    split <;> simp [ih]

/-- Sorting preserves length. -/
theorem sortByScoreDesc_length (l : List ScoredSuggestion) :
    (sortByScoreDesc l).length = l.length := by
  induction l with
  | nil => rfl
  | cons x xs ih =>
    simp only [sortByScoreDesc]
    rw [insertByScore_length, ih, List.length_cons]

/-- The adjustment loop never grows past 3 kept suggestions. -/
theorem adjustAux_length_le (rest : List ScoredSuggestion) :
    ∀ types finals, finals.length ≤ 2 → (adjustAux types finals rest).length ≤ 3 := by
  induction rest with
  | nil =>
    intro types finals h
    simpa [adjustAux] using le_trans h (by norm_num)
  | cons s rest ih =>
    intro types finals h
    simp only [adjustAux]
    split
    · split
      · simp only [List.length_append, List.length_singleton]
        omega
      · next h3 =>
        refine ih _ _ ?_
        simp only [List.length_append, List.length_singleton] at h3 ⊢
        omega
    · split
      · exact le_trans h (by norm_num)
      · exact ih _ _ h

/-- The adjustment loop never removes kept suggestions. -/
theorem adjustAux_length_ge (rest : List ScoredSuggestion) :
    ∀ types finals, finals.length ≤ (adjustAux types finals rest).length := by
  induction rest with
  | nil => intro types finals; simp [adjustAux]
  | cons s rest ih =>
    intro types finals
    simp only [adjustAux]
    split
    · split
      · simp
      · refine le_trans ?_ (ih (addType types (_categorize_suggestion s.text)) (finals ++ [s]))
        simp
    · split
      · exact le_rfl
      · exact ih types finals

/-- C8: for every non-empty candidate list and context,
`optimize_suggestions` returns at most 3 suggestions (the source's
hard-coded maximum) and never an empty list. -/
theorem optimizer_output_bounds (suggestions : List Suggestion) (ctx : OptimizationContext)
    (h : suggestions ≠ []) :
    (optimize_suggestions suggestions ctx).length ≤ 3 ∧
    optimize_suggestions suggestions ctx ≠ [] := by
  unfold optimize_suggestions _adjust_suggestions
  constructor
  · exact adjustAux_length_le _ [] [] (by simp)
  · have hlen : (sortByScoreDesc (suggestions.map (scoreSuggestion ctx))).length =
        suggestions.length := by
      rw [sortByScoreDesc_length, List.length_map]
    have hne : sortByScoreDesc (suggestions.map (scoreSuggestion ctx)) ≠ [] := by
      intro hx
      rw [hx] at hlen
      exact h (List.eq_nil_of_length_eq_zero hlen.symm)
    obtain ⟨s, rest, hsr⟩ := List.exists_cons_of_ne_nil hne
    rw [hsr]
    simp only [adjustAux]
    rw [if_pos (Or.inl (List.not_mem_nil _))]
    rw [if_neg (by simp)]
    intro hnil
    have hge := adjustAux_length_ge rest
      (addType [] (_categorize_suggestion s.text)) ([] ++ [s])
    rw [hnil] at hge
    simp at hge

/-- Witness for C8 at a single concrete candidate. -/
theorem optimizer_output_bounds_witness :
    (optimize_suggestions [{ text := "Would tomorrow work for a tour?" }]
        { stage := "initial" }).length ≤ 3 ∧
    optimize_suggestions [{ text := "Would tomorrow work for a tour?" }]
        { stage := "initial" } ≠ [] :=
  optimizer_output_bounds [{ text := "Would tomorrow work for a tour?" }]
    { stage := "initial" } (by simp)

/-! ## src/backend/app/services/suggestion_generator.py :
the generator turn and src/backend/app/services/openai_service.py -/

/-- The request fields of `SuggestionRequest` that
`_get_fallback_suggestions` reads (`current_stage` only). -/
structure SuggestionRequest where
  current_stage : String
deriving DecidableEq, Repr

/-- `AIService._get_fallback_suggestions` as written in
openai_service.py (lines 969-1001): three fixed stage-appropriate texts,
each tagged `type="fallback"` with `confidence=0.8`. The enclosing module
never compiles (see `importOpenaiService` below), so the running program
can never produce this list; the definition embeds the source text in
order to state what the specified fallback would be. -/
def _get_fallback_suggestions (request : SuggestionRequest) : List Suggestion :=
  let stage := pyLower request.current_stage
  let fallbacks : List String :=
    if stage = "initial" then
      ["Would you like to tell me more about what you\x27re looking for in a home?",
       "What\x27s your timeline for making a move?",
       "Have you had a chance to view any properties in person yet?"]
    else if stage = "qualification" then
      ["What features are most important to you in your next home?",
       "Would you be interested in scheduling a viewing of some properties that match your criteria?",
       "What areas are you most interested in?"]
    else if stage = "objection" then
      ["I understand your concerns. Would it help if we discussed this in person?",
       "What specific aspects are you most concerned about?",
       "Let\x27s schedule a time to meet and address all your questions in detail."]
    else
      ["Would you be interested in scheduling a viewing?",
       "What would be the best time for us to meet and discuss your options?",
       "I\x27d love to show you some properties that match your criteria. When works best for you?"]
  fallbacks.map (fun text => { text := text, confidence := 8 / 10, type := "fallback" })

/-- The Python exceptions observable in the generator turn. -/
inductive PyExc
  | syntaxError (msg : String)
  | unboundLocalError (name : String)
deriving DecidableEq, Repr

/-- The outcome of `from .openai_service import ai_service,
SuggestionRequest` (suggestion_generator.py line 131). openai_service.py
contains duplicated merge-artifact statement blocks (orphaned code at
lines 392-525 inside `transcribe_audio` and at lines 784-967), so CPython
cannot compile the module: parsing stops with `SyntaxError: unexpected
indent` at line 393. A failed module import is not cached, so the import
statement raises this error on every call. -/
def importOpenaiService : Except PyExc Unit :=
  .error (.syntaxError "unexpected indent (openai_service.py, line 393)")

/-- `SuggestionGenerator.generate_suggestions` as it executes, relative to
the outcome of its first statement, the deferred import. When the import
raises, control reaches the `except Exception` arm (line 266), whose first
statement reads the name `logger` — a function local assigned only at line
133, after the import, with no module-level binding — so the handler
itself raises `UnboundLocalError` and the turn never completes. `rest`
abstracts the remainder of the body (AI call, templates, dedup, sort,
top-3), which is reachable only if the import succeeds. -/
def generate_suggestions_turn (importResult : Except PyExc Unit)
    (rest : Except PyExc (List Suggestion)) : Except PyExc (List Suggestion) :=
  match importResult with
  | .error _ => .error (.unboundLocalError "logger")
  | .ok _ => rest

/-! ## Theorem for the LLM fallback claim (C9) -/

/-- C9 (code bug): the turn never returns the fallback suggestions and
never completes — whatever the rest of the body would do, every
`generate_suggestions` call raises `UnboundLocalError` on the unassigned
local `logger` while handling the `SyntaxError` import failure of
openai_service.py, instead of returning the 3 fixed stage-appropriate
fallback suggestions the claim (and the spec's failure-semantics section)
describes. -/
theorem generator_turn_raises (rest : Except PyExc (List Suggestion))
    (request : SuggestionRequest) :
    generate_suggestions_turn importOpenaiService rest =
      Except.error (PyExc.unboundLocalError "logger") ∧
    generate_suggestions_turn importOpenaiService rest ≠
      Except.ok (_get_fallback_suggestions request) ∧
    (_get_fallback_suggestions request).length = 3 := by
  refine ⟨rfl, ?_, ?_⟩
  · intro h
    rw [show generate_suggestions_turn importOpenaiService rest =
        Except.error (PyExc.unboundLocalError "logger") from rfl] at h
    exact Except.noConfusion h
  · unfold _get_fallback_suggestions
    dsimp only
    split_ifs <;> rfl

end CallAssistant
